import Mathlib

/-!
Shallow embedding of the pg-reflinker controller
(src/src/pg_reflinker/main.py) and proofs about its provisioning
state machine.  The repository's other file, src/src/pg-reflinker/main.py,
is the first-pass draft that the final implementation supersedes; the
embedding follows the final file throughout.

The controller is a kopf operator.  Each decorated Python handler is
embedded as a Lean function; interactions with the Kubernetes API are
modelled by an explicit cluster state (`Cluster`: the PersistentVolumes,
Jobs and PersistentVolumeClaims the controller itself reads, creates,
mutates and deletes) together with an environment record (`Env`) that
answers the read-only lookups of external objects (storage classes, the
source PVC, the CNPG cluster, pods, secrets).  Fallible API calls return
`Except`; a raised kopf error or an uncaught ApiException is the
`.error` case of a handler's result.  An event-step relation (`step`)
replays the watch events the handlers are registered for, which gives
the reachability notion used by the invariant proofs.
-/

namespace PgReflinker

/-! The Python string builtins main.py uses (str.split, str.replace,
str.strip, os.path.join, prefix tests), expressed as structurally
recursive functions on the string's character list so that every
handler is fully computable. -/

/-- Whether the first list is a prefix of the second (as Booleans, by
structural recursion). -/
def leadsWith : List Char → List Char → Bool
  | [], _ => true
  | _ :: _, [] => false
  | a :: as, b :: bs => a == b && leadsWith as bs

/-- Whether the string starts with the given text. -/
def beginsWith (s pre : String) : Bool := leadsWith pre.data s.data

/-- Whether the string ends with the given text. -/
def tailsWith (s post : String) : Bool := leadsWith post.data.reverse s.data.reverse

/-- Python str.split(sep) on the character list: always at least one
piece, an empty input giving one empty piece. -/
def splitOnChar (sep : Char) : List Char → List (List Char)
  | [] => [[]]
  | c :: cs =>
    let r := splitOnChar sep cs
    if c == sep then [] :: r
    else
      match r with
      | [] => [[c]]
      | h :: t => (c :: h) :: t

/-- Python str.split with a one-character separator. -/
def pySplit (s : String) (sep : Char) : List String :=
  (splitOnChar sep s.data).map String.mk

/-- Python's default str.strip whitespace test. -/
def isSpaceChar (c : Char) : Bool :=
  c == ' ' || c == '\t' || c == '\n' || c == '\r'

/-- Python str.strip() on the character list. -/
def trimChars (cs : List Char) : List Char :=
  ((cs.dropWhile isSpaceChar).reverse.dropWhile isSpaceChar).reverse

/-- Python str.replace(old, new), left to right over non-overlapping
occurrences; the fuel (at least the input length) makes the recursion
structural. -/
def replaceCharsAux (pat rep : List Char) : Nat → List Char → List Char
  | _, [] => []
  | 0, s => s
  | fuel + 1, c :: cs =>
    if leadsWith pat (c :: cs) && !pat.isEmpty then
      rep ++ replaceCharsAux pat rep fuel (List.drop pat.length (c :: cs))
    else c :: replaceCharsAux pat rep fuel cs

/-- Python str.replace(old, new) for a non-empty pattern. -/
def pyReplace (s pat rep : String) : String :=
  String.mk (replaceCharsAux pat.data rep.data s.data.length s.data)

/-- Python truthiness-or on an optional string: `x or d` yields `d` when
`x` is `None` or the empty string (used for `reclaim_policy or 'Retain'`
and the `postgres_image` fallback in main.py). -/
def pyOr (o : Option String) (d : String) : String :=
  match o with
  | none => d
  | some s => if s = "" then d else s

/-- Python `not old` on the optional integer kopf passes as a field
value: `None` and `0` are falsy. -/
def pyFalsyNat (o : Option Nat) : Bool :=
  o == none || o == some 0

/-- os.path.join for the one use in main.py (`os.path.join(HOSTPATH_PREFIX, guid)`
with a relative second component): a separator is added unless the
first part is empty or already ends with one. -/
def pathJoin (a b : String) : String :=
  if a = "" then b
  else if a.data.getLast? == some '/' then a ++ b
  else a ++ "/" ++ b

/-- Equality of handler results is decidable (Except does not derive
it in core). -/
instance {ε α : Type} [DecidableEq ε] [DecidableEq α] : DecidableEq (Except ε α)
  | .ok a, .ok b =>
    if h : a = b then .isTrue (by rw [h]) else .isFalse (fun hh => h (Except.ok.inj hh))
  | .ok _, .error _ => .isFalse (fun hh => Except.noConfusion hh)
  | .error _, .ok _ => .isFalse (fun hh => Except.noConfusion hh)
  | .error e, .error f =>
    if h : e = f then .isTrue (by rw [h]) else .isFalse (fun hh => h (Except.error.inj hh))

/-- One entry of metadata.ownerReferences on the source PVC. -/
structure OwnerReference where
  kind : String
  apiVersion : String
  name : String
deriving DecidableEq

/-- V1ObjectReference as used for spec.claimRef (kind, name, namespace, uid). -/
structure ClaimRef where
  kind : String
  name : String
  ns : String
  uid : Option String
deriving DecidableEq

/-- The fields of V1PersistentVolumeSpec that main.py reads or writes.
nodeAffinity is copied opaquely from the source volume, so it is kept
abstract as an optional token. -/
structure PVSpec where
  capacity : String
  accessModes : List String
  localPath : String
  storageClassName : Option String
  persistentVolumeReclaimPolicy : Option String
  nodeAffinity : Option String
  claimRef : Option ClaimRef
deriving DecidableEq

/-- A PersistentVolume object: metadata (name, labels, annotations),
spec, and the status.phase written by the orchestrator. -/
structure PVObj where
  name : String
  labels : List (String × String)
  annotations : List (String × String)
  spec : PVSpec
  phase : String := "Pending"
deriving DecidableEq

/-- A volume entry of the job's pod spec. -/
inductive VolumeSource where
  | pvc (claimName : String) (readOnly : Bool)
  | hostPath (path : String)
  | secret (secretName : String) (defaultMode : Nat) (items : List (String × String × Nat))
deriving DecidableEq

/-- A container of the job's pod spec: the fields main.py sets. -/
structure ContainerObj where
  name : String
  image : String
  command : List String
  env : List (String × String) := []
  volumeMounts : List (String × String) := []
  runAsUser : Option Nat := none
  runAsGroup : Option Nat := none
deriving DecidableEq

/-- The pod template spec of a created Job. -/
structure PodSpecObj where
  nodeName : Option String
  restartPolicy : String
  fsGroup : Option Nat := none
  initContainers : List ContainerObj := []
  volumes : List (String × VolumeSource) := []
  containers : List ContainerObj := []
deriving DecidableEq

/-- The job status fields the handlers are registered on.
everSucceeded is a history variable of the model, not a Kubernetes
field: it records that status.succeeded reached at least 1 at some
observation, which is what the invariant proofs mean by the job having
reported success. -/
structure JobStatus where
  succeeded : Option Nat := none
  failed : Option Nat := none
  conditions : List (String × String) := []
  everSucceeded : Bool := false
deriving DecidableEq

/-- A batch/v1 Job object as main.py builds and observes it. -/
structure JobObj where
  name : String
  ns : String
  labels : List (String × String)
  annotations : List (String × String)
  podSpec : PodSpecObj
  status : JobStatus := {}
deriving DecidableEq

/-- The coordinates of a PersistentVolumeClaim that the bind step reads
back (namespace, name, uid). -/
structure PvcObj where
  ns : String
  name : String
  uid : Option String
deriving DecidableEq

/-- The slice of the Kubernetes API state the controller itself reads,
creates, mutates or deletes. -/
structure Cluster where
  pvs : List PVObj := []
  jobs : List JobObj := []
  pvcs : List PvcObj := []
deriving DecidableEq

/-- An ApiException: HTTP status and message. -/
structure ApiErr where
  status : Nat
  msg : String
deriving DecidableEq

/-- The error outcomes a handler can finish with: kopf.PermanentError,
kopf.TemporaryError (with its delay in seconds), or an uncaught
ApiException propagating out of the handler. -/
inductive KopfErr where
  | permanentError (msg : String)
  | temporaryError (msg : String) (delay : Nat)
  | apiError (status : Nat) (msg : String)
deriving DecidableEq

/-- The storage class fields main.py reads. -/
structure StorageClassObj where
  provisioner : String
  reclaimPolicy : Option String
deriving DecidableEq

/-- The source PVC fields main.py reads. -/
structure SourcePvcObj where
  phase : String
  ownerReferences : List OwnerReference
  volumeName : Option String
deriving DecidableEq

/-- The CNPG cluster custom object: spec.imageName. -/
structure ClusterObj where
  imageName : Option String
deriving DecidableEq

/-- A pod as returned by the label-selected list: spec.nodeName and
status.podIP. -/
structure PodObj where
  nodeName : String
  podIp : String
deriving DecidableEq

/-- spec.dataSourceRef of the incoming claim. -/
structure DataSourceRef where
  kind : String
  name : String
  ns : Option String
deriving DecidableEq

/-- The kopf create event for a PersistentVolumeClaim: the claim's
coordinates, uid, and the spec fields handle_pvc_create reads.
storageClassName is none exactly when Python's `if not
storage_class_name` guard fires (spec.get returned None or the empty
string). -/
structure PvcEvent where
  ns : String
  name : String
  uid : Option String
  storageClassName : Option String
  dataSourceRef : Option DataSourceRef
  requestedStorage : String
deriving DecidableEq

/-- The read-only environment of handle_pvc_create: lookups of objects
the controller only reads (storage classes, source PVCs, the CNPG
cluster object, pods, secrets), plus NAMESPACE_PATH and the uuid4
fallback guid. -/
structure Env where
  readStorageClass : String → Except ApiErr StorageClassObj
  readPvc : String → String → Except ApiErr SourcePvcObj
  namespacePath : String
  getCluster : String → String → Except ApiErr ClusterObj
  readSourcePvNodeAffinity : String → Except ApiErr (Option String)
  listPods : String → String → List PodObj
  secretsOk : String → String → Bool
  randomGuid : String

/-! State-passing Kubernetes API operations (create refuses an existing
name with 409, delete of a missing name is 404, replace rewrites the
named object in place). -/

/-- v1.create_persistent_volume: 409 AlreadyExists when the name is taken. -/
def create_persistent_volume (st : Cluster) (pv : PVObj) : Cluster × Except KopfErr Unit :=
  if st.pvs.any (fun p => p.name == pv.name) then
    (st, .error (.apiError 409 "persistentvolumes already exists"))
  else ({ st with pvs := st.pvs ++ [pv] }, .ok ())

/-- batch_v1.create_namespaced_job: 409 AlreadyExists when the key is taken. -/
def create_namespaced_job (st : Cluster) (job : JobObj) : Cluster × Except KopfErr Unit :=
  if st.jobs.any (fun j => j.ns == job.ns && j.name == job.name) then
    (st, .error (.apiError 409 "jobs already exists"))
  else ({ st with jobs := st.jobs ++ [job] }, .ok ())

/-- v1.read_persistent_volume as a lookup in the state. -/
def findPv (st : Cluster) (n : String) : Option PVObj :=
  st.pvs.find? (fun p => p.name == n)

/-- v1.read_namespaced_persistent_volume_claim for the requesting claim. -/
def findPvc (st : Cluster) (ns n : String) : Option PvcObj :=
  st.pvcs.find? (fun p => p.ns == ns && p.name == n)

/-- v1.delete_persistent_volume: removes the named PV, 404 when absent. -/
def delete_persistent_volume (st : Cluster) (n : String) : Cluster × Except KopfErr Unit :=
  if st.pvs.any (fun p => p.name == n) then
    ({ st with pvs := st.pvs.filter (fun p => !(p.name == n)) }, .ok ())
  else (st, .error (.apiError 404 "persistentvolumes not found"))

/-- v1.replace_persistent_volume: rewrites the object with the given name. -/
def replace_persistent_volume (st : Cluster) (n : String) (pv : PVObj) : Cluster :=
  { st with pvs := st.pvs.map (fun p => if p.name == n then pv else p) }

/-! The embedded handlers. -/

/-- The provisioner name main.py requires on the storage class. -/
def provisionerName : String := "k8s.insiderscore.com/pg-reflinker"

/-- The managed-by label put on every created object and filtered on by
every non-create handler. -/
def managedByLabel : List (String × String) := [("app.kubernetes.io/managed-by", "pg-reflinker")]

/-- The `[ns.strip() for ns in namespace_path.split(',') if ns.strip()]`
parse of NAMESPACE_PATH.  main.py guards with `if namespace_path:` first;
on the empty string the comprehension yields the same empty list, so the
guard is behaviourally redundant and folded in here. -/
def parseNamespacePath (s : String) : List String :=
  ((splitOnChar ',' s.data).map (fun cs => String.mk (trimChars cs))).filter (fun x => x ≠ "")

/-- The namespace-search loop of handle_pvc_create (main.py lines
144-153): first namespace in which the source PVC reads back wins, a 404
moves on to the next candidate, any other ApiException re-raises. -/
def searchPvc (env : Env) (srcName : String) : List String → Except KopfErr (String × SourcePvcObj)
  | [] => .error (.permanentError ("Source PVC " ++ srcName ++ " not found in any candidate namespace"))
  | ns :: rest =>
    match env.readPvc srcName ns with
    | .ok p => .ok (ns, p)
    | .error e =>
      if e.status == 404 then searchPvc env srcName rest
      else .error (.apiError e.status e.msg)

/-- Namespace resolution of the data source (main.py lines 128-155): an
explicit namespace is used directly (404 there is permanent), otherwise
the claim's own namespace followed by NAMESPACE_PATH is searched. -/
def findSourcePvc (env : Env) (ev : PvcEvent) (dsr : DataSourceRef) :
    Except KopfErr (String × SourcePvcObj) :=
  match dsr.ns with
  | some sns =>
    match env.readPvc dsr.name sns with
    | .ok p => .ok (sns, p)
    | .error e =>
      if e.status == 404 then
        .error (.permanentError ("Source PVC " ++ dsr.name ++ " not found in namespace " ++ sns))
      else .error (.apiError e.status e.msg)
  | none => searchPvc env dsr.name (ev.ns :: parseNamespacePath env.namespacePath)

/-- Whether an owner reference is the CNPG Cluster owner main.py looks
for (kind Cluster, api_version postgresql.cnpg.io/v1). -/
def isCnpgClusterOwner (r : OwnerReference) : Bool :=
  r.kind == "Cluster" && r.apiVersion == "postgresql.cnpg.io/v1"

/-- The owner-walk loop of main.py lines 162-167: the first matching
owner reference wins (the loop breaks at the first match). -/
def resolveClusterName (refs : List OwnerReference) : Option String :=
  (refs.find? isCnpgClusterOwner).map (fun r => r.name)

/-- The pre-bound PersistentVolume built at main.py lines 208-233:
managed-by label, the eight pg-reflinker annotations, capacity copied
from the claim, ReadWriteOnce, a local volume at HOSTPATH_PREFIX/guid,
reclaim policy from the storage class, node affinity copied from the
source volume.  spec.storage_class_name is left unset (the source's
comment: not set initially to prevent premature binding) and no
claim_ref is set. -/
def mkPv (pvName guid clusterName sourceNamespace sourcePvcName claimNamespace claimName
    storageClassName sourceNode requestedStorage reclaimPolicy : String)
    (nodeAffinity : Option String) (pvPath : String) : PVObj :=
  { name := pvName
    labels := managedByLabel
    annotations :=
      [ ("pg-reflinker/source-cluster", clusterName),
        ("pg-reflinker/source-namespace", sourceNamespace),
        ("pg-reflinker/source-pvc", sourcePvcName),
        ("pg-reflinker/source-backup-label", guid),
        ("pg-reflinker/claim-namespace", claimNamespace),
        ("pg-reflinker/claim-name", claimName),
        ("pg-reflinker/storage-class", storageClassName),
        ("pg-reflinker/node", sourceNode) ]
    spec :=
      { capacity := requestedStorage
        accessModes := ["ReadWriteOnce"]
        localPath := pvPath
        storageClassName := none
        persistentVolumeReclaimPolicy := some reclaimPolicy
        nodeAffinity := nodeAffinity
        claimRef := none } }

/-- The backup script of main.py lines 238-250, line by line (the
literal is a fixed f-string with no interpolation; `\\!`, `\\t`, `\\a`,
`\\o` in the Python source are a single backslash in the actual text). -/
def backupScriptLines : List String :=
  [ "",
    "#!/bin/bash",
    "set -e",
    "psql -h $PGHOST -p 5432 -U streaming_replica -d postgres -v ON_ERROR_STOP=1 -v TAG=\"$BACKUP_LABEL\" <<EOF",
    "SELECT pg_backup_start('reflinker-' || :'TAG', true);",
    "\\! cp -a --reflink=always /source /dest/pgdata",
    "\\t",
    "\\a",
    "\\o /dest/pgdata/backup_label",
    "SELECT labelfile from pg_backup_stop(false);",
    "\\o",
    "EOF",
    "" ]

/-- The backup script as the one string main.py embeds in the job. -/
def backupScript : String := String.intercalate "\n" backupScriptLines

/-- The backup Job built at main.py lines 251-350: pinned to the source
node, fsGroup 26, root init container chowning /dest, the source claim
mounted read-only, the destination host path, both TLS secrets at mode
0o640, and the main container running the backup script with the
PGHOST/BACKUP_LABEL/PGSSL* environment. -/
def mkBackupJob (jobName sourceNamespace guid sourceNode podIp sourcePvcName clusterName
    postgresImage pvPath : String) : JobObj :=
  { name := jobName
    ns := sourceNamespace
    labels := managedByLabel
    annotations := [("pg-reflinker/pv-guid", guid)]
    podSpec :=
      { nodeName := some sourceNode
        restartPolicy := "Never"
        fsGroup := some 26
        initContainers :=
          [ { name := "init-permissions"
              image := "busybox:1.36"
              command := ["sh", "-c", "mkdir -p /dest && chown -R 26:26 /dest"]
              runAsUser := some 0
              runAsGroup := some 0
              volumeMounts := [("dest-data", "/dest")] } ]
        volumes :=
          [ ("source-data", .pvc sourcePvcName true),
            ("dest-data", .hostPath pvPath),
            ("replication-secret",
              .secret (clusterName ++ "-replication") 0o640
                [("tls.crt", "tls.crt", 0o640), ("tls.key", "tls.key", 0o640)]),
            ("ca-secret", .secret (clusterName ++ "-ca") 0o640 []) ]
        containers :=
          [ { name := "reflink-backup"
              image := postgresImage
              command := ["/bin/bash", "-c", backupScript]
              runAsUser := some 26
              runAsGroup := some 26
              env :=
                [ ("PGHOST", podIp),
                  ("BACKUP_LABEL", guid),
                  ("PGSSLMODE", "verify-ca"),
                  ("PGSSLCERT", "/secrets/replication/tls.crt"),
                  ("PGSSLKEY", "/secrets/replication/tls.key"),
                  ("PGSSLROOTCERT", "/secrets/ca/ca.crt") ]
              volumeMounts :=
                [ ("source-data", "/source"),
                  ("dest-data", "/dest"),
                  ("replication-secret", "/secrets/replication"),
                  ("ca-secret", "/secrets/ca") ] } ] } }

/-- The read-and-validate phase of handle_pvc_create (main.py lines
102-350): everything before the two create calls, which in the source is
a straight-line sequence of environment reads.  Returns `.ok none` on
the silent ignore paths (no storage class named, foreign provisioner),
an error for each raise, and the PV and Job to create on success. -/
def plan (hostpathRoot : String) (env : Env) (ev : PvcEvent) :
    Except KopfErr (Option (PVObj × JobObj)) :=
  match ev.storageClassName with
  | none => .ok none
  | some scn =>
    match env.readStorageClass scn with
    | .error _ => .error (.permanentError ("Failed to read storage class " ++ scn))
    | .ok sc =>
      if sc.provisioner ≠ provisionerName then .ok none
      else
        let reclaimPolicy := pyOr sc.reclaimPolicy "Retain"
        match ev.dataSourceRef with
        | none => .error (.permanentError "dataSourceRef must point to a PVC")
        | some dsr =>
          if dsr.kind ≠ "PersistentVolumeClaim" then
            .error (.permanentError "dataSourceRef must point to a PVC")
          else
            match findSourcePvc env ev dsr with
            | .error e => .error e
            | .ok (sourceNamespace, sourcePvc) =>
              if sourcePvc.phase ≠ "Bound" then
                .error (.temporaryError
                  ("Source PVC " ++ dsr.name ++ " in namespace " ++ sourceNamespace ++ " is not bound yet") 30)
              else
                match resolveClusterName sourcePvc.ownerReferences with
                | none => .error (.permanentError "Source PVC must be owned by a CNPG Cluster")
                | some clusterName =>
                  match env.getCluster sourceNamespace clusterName with
                  | .error _ => .error (.permanentError ("Failed to get cluster " ++ clusterName))
                  | .ok cluster =>
                    let postgresImage := pyOr cluster.imageName "postgres:16"
                    let nodeAffinity :=
                      match sourcePvc.volumeName with
                      | some vn =>
                        match env.readSourcePvNodeAffinity vn with
                        | .ok na => na
                        | .error _ => none
                      | none => none
                    match env.listPods sourceNamespace clusterName with
                    | [] => .error (.temporaryError "Failed to get pod or secrets" 30)
                    | pod :: _ =>
                      if !(env.secretsOk clusterName sourceNamespace) then
                        .error (.temporaryError "Failed to get pod or secrets" 30)
                      else
                        let guid := ev.uid.getD env.randomGuid
                        let pvName := "pvc-" ++ guid
                        let pvPath := pathJoin hostpathRoot guid
                        let jobName := "pg-reflinker-" ++ guid
                        .ok (some
                          ( mkPv pvName guid clusterName sourceNamespace dsr.name ev.ns ev.name
                              scn pod.nodeName ev.requestedStorage reclaimPolicy nodeAffinity pvPath,
                            mkBackupJob jobName sourceNamespace guid pod.nodeName pod.podIp
                              dsr.name clusterName postgresImage pvPath ))

/-- handle_pvc_create (main.py lines 101-351): the validation phase,
then create_persistent_volume, then create_namespaced_job.  An error of
either create propagates uncaught and aborts the handler. -/
def handle_pvc_create (hostpathRoot : String) (env : Env) (ev : PvcEvent) (st : Cluster) :
    Cluster × Except KopfErr Unit :=
  match plan hostpathRoot env ev with
  | .error e => (st, .error e)
  | .ok none => (st, .ok ())
  | .ok (some (pv, job)) =>
    match create_persistent_volume st pv with
    | (st1, .error e) => (st1, .error e)
    | (st1, .ok _) => create_namespaced_job st1 job

/-- The guid extraction of handle_job_succeeded and of the
status.failed handle_job_failed: `name.replace('pg-reflinker-', '')`. -/
def guidFromJobName (jobName : String) : String :=
  pyReplace jobName "pg-reflinker-" ""

/-- handle_job_succeeded (main.py lines 353-410), registered on the
status.succeeded field of managed jobs.  Fires only when `not old and
new == 1`.  It reads the PV named pvc-{guid}, requires its annotations,
reads the requesting claim for its uid (a failure there is a
PermanentError: nothing is deleted), then replaces the PV with
storage_class_name and claim_ref set.  An ApiException on the PV read is
caught and rewrapped as a PermanentError. -/
def handle_job_succeeded (old new : Option Nat) (name : String) (st : Cluster) :
    Cluster × Except KopfErr Unit :=
  if pyFalsyNat old && new == some 1 then
    let guid := guidFromJobName name
    let pvName := "pvc-" ++ guid
    match findPv st pvName with
    | none => (st, .error (.permanentError ("API error while binding PV " ++ pvName)))
    | some pv =>
      if pv.annotations.isEmpty then
        (st, .error (.permanentError ("PersistentVolume " ++ pvName ++ " is missing metadata or annotations.")))
      else
        match List.lookup "pg-reflinker/storage-class" pv.annotations,
              List.lookup "pg-reflinker/claim-name" pv.annotations,
              List.lookup "pg-reflinker/claim-namespace" pv.annotations with
        | some storageClass, some claimName, some claimNamespace =>
          if storageClass == "" || claimName == "" || claimNamespace == "" then
            (st, .error (.permanentError ("PersistentVolume " ++ pvName ++ " is missing required annotations for binding.")))
          else
            match findPvc st claimNamespace claimName with
            | none =>
              (st, .error (.permanentError ("Failed to retrieve PVC " ++ claimNamespace ++ "/" ++ claimName)))
            | some pvc =>
              let pv2 := { pv with spec :=
                { pv.spec with
                    storageClassName := some storageClass
                    claimRef := some
                      { kind := "PersistentVolumeClaim"
                        name := claimName
                        ns := claimNamespace
                        uid := pvc.uid } } }
              (replace_persistent_volume st pvName pv2, .ok ())
        | _, _, _ =>
          (st, .error (.permanentError ("PersistentVolume " ++ pvName ++ " is missing required annotations for binding.")))
  else (st, .ok ())

/-- The first handle_job_failed (main.py lines 412-425), registered on
the status.failed field of managed jobs.  Fires only when `not old and
new == 1`; deletes pvc-{guid}; a 404 on the delete is logged as already
deleted and every other ApiException is logged too, so the handler never
raises. -/
def handle_job_failed (old new : Option Nat) (name : String) (st : Cluster) : Cluster :=
  if pyFalsyNat old && new == some 1 then
    let guid := guidFromJobName name
    let pvName := "pvc-" ++ guid
    (delete_persistent_volume st pvName).1
  else st

/-- The second handler named handle_job_failed in the source (main.py
lines 466-488), registered on status.conditions of managed jobs.  Python
registers both despite the name clash.  It scans the current conditions
with no comparison of old against new; on the first Failed=True
condition it derives the guid as `name.split('-')[-1]` (the text after
the last hyphen), deletes pvc-{that}, then -- via the line reading
`breakguid = name.split('-')[-1]`, an assignment to a fresh variable --
deletes the same name a second time with all ApiExceptions swallowed,
and breaks. -/
def handle_job_failed_conditions (conds : List (String × String)) (name : String)
    (st : Cluster) : Cluster :=
  match conds.find? (fun c => c.1 == "Failed" && c.2 == "True") with
  | some _ =>
    let guid := (pySplit name '-').getLastD ""
    let pvName := "pvc-" ++ guid
    let st1 := (delete_persistent_volume st pvName).1
    (delete_persistent_volume st1 pvName).1
  | none => st

/-- The second handler named handle_pv_delete in the source (main.py
lines 490-550), registered on deletion of managed PVs.  (The first, at
lines 427-451, only logs and creates nothing.)  Requires the
source-backup-label annotation; under reclaim policy Delete (read with
dict-get default Retain) it builds the cleanup job: named
pg-reflinker-cleanup-{guid}, in the namespace of the source-namespace
annotation falling back to default, pinned via node_name to the node
annotation, mounting HOSTPATH_PREFIX at /cleanup and running
`rm -rf /cleanup/{guid}` as root.  Returns the job to create, if any. -/
def handle_pv_delete (hostpathRoot : String) (pv : PVObj) : Option JobObj :=
  let reclaimPolicy := (pv.spec.persistentVolumeReclaimPolicy).getD "Retain"
  match List.lookup "pg-reflinker/source-backup-label" pv.annotations with
  | none => none
  | some guid =>
    if reclaimPolicy == "Delete" then
      some
        { name := "pg-reflinker-cleanup-" ++ guid
          ns := (List.lookup "pg-reflinker/source-namespace" pv.annotations).getD "default"
          labels := managedByLabel
          annotations := []
          podSpec :=
            { nodeName := List.lookup "pg-reflinker/node" pv.annotations
              restartPolicy := "Never"
              volumes := [("cleanup-data", .hostPath hostpathRoot)]
              containers :=
                [ { name := "cleanup"
                    image := "busybox:1.36"
                    command := ["sh", "-c", "rm -rf /cleanup/" ++ guid]
                    runAsUser := some 0
                    runAsGroup := some 0
                    volumeMounts := [("cleanup-data", "/cleanup")] } ] } }
    else none

/-- handle_pv_failed (main.py lines 552-561), registered on status.phase
of managed PVs: deletes the PV when the new phase is Failed; delete
errors are not caught.  (on_pv_phase_change at lines 453-464 observes
the same field and does nothing.) -/
def handle_pv_failed (new : Option String) (pvName : String) (st : Cluster) :
    Cluster × Except KopfErr Unit :=
  if new == some "Failed" then delete_persistent_volume st pvName
  else (st, .ok ())

/-! The event-step system: the watch events the registered handlers
react to, replayed over the cluster state. -/

/-- Whether an object's labels match the managed-by filter of the
non-create handlers. -/
def isManaged (labels : List (String × String)) : Bool :=
  List.lookup "app.kubernetes.io/managed-by" labels == some "pg-reflinker"

/-- The status write the orchestrator performs before a
status.succeeded field event is delivered; everSucceeded is the
history variable recording that succeeded reached at least 1. -/
def succeededReached (v : Option Nat) : Bool :=
  match v with
  | some k => decide (1 ≤ k)
  | none => false

/-- Rewrites the job with the given key through f. -/
def updateJob (st : Cluster) (ns n : String) (f : JobObj → JobObj) : Cluster :=
  { st with jobs := st.jobs.map (fun j => if j.ns == ns && j.name == n then f j else j) }

/-- The observable events of the system: a claim creation (with the
environment snapshot its handler reads), the job status field updates,
a PV phase update, a PV deletion, and a claim deletion. -/
inductive Event where
  | claimCreated (env : Env) (ev : PvcEvent)
  | jobSucceededSet (ns jobName : String) (v : Option Nat)
  | jobFailedSet (ns jobName : String) (v : Option Nat)
  | jobConditionsSet (ns jobName : String) (conds : List (String × String))
  | pvPhaseSet (pvName phase : String)
  | pvDeleted (pvName : String)
  | claimDeleted (ns name : String)

/-- One watch event processed to completion: the orchestrator-side
object write, then the registered handler (filtered on the managed-by
label, as in the kopf decorators).  Field events are only delivered for
objects that exist. -/
def step (hostpathRoot : String) (st : Cluster) : Event → Cluster
  | .claimCreated env ev =>
    let st0 :=
      if st.pvcs.any (fun p => p.ns == ev.ns && p.name == ev.name) then st
      else { st with pvcs := st.pvcs ++ [{ ns := ev.ns, name := ev.name, uid := ev.uid }] }
    (handle_pvc_create hostpathRoot env ev st0).1
  | .jobSucceededSet ns n v =>
    match st.jobs.find? (fun j => j.ns == ns && j.name == n) with
    | none => st
    | some j =>
      let st1 := updateJob st ns n (fun j0 =>
        { j0 with status := { j0.status with
            succeeded := v
            everSucceeded := j0.status.everSucceeded || succeededReached v } })
      if isManaged j.labels then (handle_job_succeeded j.status.succeeded v n st1).1 else st1
  | .jobFailedSet ns n v =>
    match st.jobs.find? (fun j => j.ns == ns && j.name == n) with
    | none => st
    | some j =>
      let st1 := updateJob st ns n (fun j0 =>
        { j0 with status := { j0.status with failed := v } })
      if isManaged j.labels then handle_job_failed j.status.failed v n st1 else st1
  | .jobConditionsSet ns n conds =>
    match st.jobs.find? (fun j => j.ns == ns && j.name == n) with
    | none => st
    | some j =>
      let st1 := updateJob st ns n (fun j0 =>
        { j0 with status := { j0.status with conditions := conds } })
      if isManaged j.labels then handle_job_failed_conditions conds n st1 else st1
  | .pvPhaseSet n phase =>
    match findPv st n with
    | none => st
    | some pv =>
      let st1 := { st with pvs := st.pvs.map (fun p => if p.name == n then { p with phase := phase } else p) }
      if isManaged pv.labels then (handle_pv_failed (some phase) n st1).1 else st1
  | .pvDeleted n =>
    match findPv st n with
    | none => st
    | some pv =>
      let st1 := { st with pvs := st.pvs.filter (fun p => !(p.name == n)) }
      if isManaged pv.labels then
        match handle_pv_delete hostpathRoot pv with
        | some job => (create_namespaced_job st1 job).1
        | none => st1
      else st1
  | .claimDeleted ns n =>
    { st with pvcs := st.pvcs.filter (fun p => !(p.ns == ns && p.name == n)) }

/-- Replays a list of events from the empty cluster. -/
def runEvents (hostpathRoot : String) (evs : List Event) : Cluster :=
  evs.foldl (step hostpathRoot) {}

/-! A small semantics for the psql session the backup script runs, to
settle the protocol-order claim: queries emit their result to the
current \o redirection target, \! runs a shell command between them. -/

/-- An observable step of the backup script's psql session: a SQL query
whose result is written to the current output redirection, or a shell
escape. -/
inductive BackupStep where
  | query (sql : String) (outputTo : Option String)
  | shell (cmd : String)
deriving DecidableEq

/-- Interprets the lines of a psql session: `\o path` redirects later
query output to the file (an overwrite), a bare `\o` resets it, `\t` and
`\a` only change formatting, `\! cmd` is a shell escape, and a SELECT
line is a query emitted under the current redirection. -/
def psqlInterp (out : Option String) : List String → List BackupStep
  | [] => []
  | l :: ls =>
    if beginsWith l "\\! " then .shell (String.mk (l.data.drop 3)) :: psqlInterp out ls
    else if l == "\\o" then psqlInterp none ls
    else if beginsWith l "\\o " then psqlInterp (some (String.mk (l.data.drop 3))) ls
    else if l == "\\t" || l == "\\a" then psqlInterp out ls
    else if beginsWith l "SELECT " then .query l out :: psqlInterp out ls
    else psqlInterp out ls

/-- The heredoc body the script feeds to psql: the lines between
`<<EOF` and `EOF`. -/
def heredocLines : List String :=
  ((backupScriptLines.dropWhile (fun l => !(tailsWith l "<<EOF"))).drop 1).takeWhile
    (fun l => !(l == "EOF"))

/-- The protocol the main container performs, as the interpreted trace
of the embedded script. -/
def backupProtocol : List BackupStep := psqlInterp none heredocLines

/-! Concrete fixtures used by the witnesses and counterexamples: a
storage class bound to the controller's provisioner, a Bound source PVC
owned by one CNPG cluster, and the happy-path claim event. -/

/-- Fixture storage class with the controller's provisioner and reclaim
policy Delete. -/
def sc0 : StorageClassObj :=
  { provisioner := "k8s.insiderscore.com/pg-reflinker", reclaimPolicy := some "Delete" }

/-- Fixture source PVC: Bound, owned by the CNPG cluster db-1. -/
def srcPvc0 : SourcePvcObj :=
  { phase := "Bound"
    ownerReferences := [{ kind := "Cluster", apiVersion := "postgresql.cnpg.io/v1", name := "db-1" }]
    volumeName := some "pv-src" }

/-- Fixture environment for the happy path: the storage class pgrl, the
source PVC db-1-data in namespace app, cluster db-1 with one pod on
node-a. -/
def env0 : Env :=
  { readStorageClass := fun n =>
      if n == "pgrl" then .ok sc0 else .error { status := 404, msg := "not found" }
    readPvc := fun n ns =>
      if n == "db-1-data" && ns == "app" then .ok srcPvc0
      else .error { status := 404, msg := "not found" }
    namespacePath := ""
    getCluster := fun _ n =>
      if n == "db-1" then .ok { imageName := some "pg:16" }
      else .error { status := 404, msg := "not found" }
    readSourcePvNodeAffinity := fun _ => .ok (some "node-a")
    listPods := fun ns c =>
      if ns == "app" && c == "db-1" then [{ nodeName := "node-a", podIp := "10.0.0.5" }]
      else []
    secretsOk := fun _ _ => true
    randomGuid := "r-a-n-d" }

/-- Fixture claim event: claim app/db-clone with uid abcd-1234, storage
class pgrl, data source db-1-data with no namespace qualifier. -/
def ev0 : PvcEvent :=
  { ns := "app", name := "db-clone", uid := some "abcd-1234"
    storageClassName := some "pgrl"
    dataSourceRef := some { kind := "PersistentVolumeClaim", name := "db-1-data", ns := none }
    requestedStorage := "10Gi" }

/-- The default HOSTPATH_PREFIX. -/
def defaultHostpath : String := "/var/lib/pg-reflinker"

/-- The PV-and-job pair the validation phase would create, as an
Option (none on every ignore and error path). -/
def planned (hostpathRoot : String) (env : Env) (ev : PvcEvent) : Option (PVObj × JobObj) :=
  match plan hostpathRoot env ev with
  | .ok (some pj) => some pj
  | _ => none

/-- The pre-bound PV the happy-path fixture creates (the value of
`plan defaultHostpath env0 ev0`). -/
def pv0 : PVObj :=
  { name := "pvc-abcd-1234"
    labels := managedByLabel
    annotations :=
      [ ("pg-reflinker/source-cluster", "db-1"),
        ("pg-reflinker/source-namespace", "app"),
        ("pg-reflinker/source-pvc", "db-1-data"),
        ("pg-reflinker/source-backup-label", "abcd-1234"),
        ("pg-reflinker/claim-namespace", "app"),
        ("pg-reflinker/claim-name", "db-clone"),
        ("pg-reflinker/storage-class", "pgrl"),
        ("pg-reflinker/node", "node-a") ]
    spec :=
      { capacity := "10Gi"
        accessModes := ["ReadWriteOnce"]
        localPath := "/var/lib/pg-reflinker/abcd-1234"
        storageClassName := none
        persistentVolumeReclaimPolicy := some "Delete"
        nodeAffinity := some "node-a"
        claimRef := none } }

/-- A cluster state holding only the pre-bound fixture PV. -/
def stOne : Cluster := { pvs := [pv0], jobs := [], pvcs := [] }

/-- A cluster state holding the pre-bound fixture PV and the requesting
claim, ready for the bind step. -/
def stBind : Cluster :=
  { pvs := [pv0], jobs := [], pvcs := [{ ns := "app", name := "db-clone", uid := some "abcd-1234" }] }

/-- The bound form of the fixture PV: what handle_job_succeeded replaces
it with. -/
def boundPv0 : PVObj :=
  { pv0 with spec :=
      { pv0.spec with
          storageClassName := some "pgrl"
          claimRef := some
            { kind := "PersistentVolumeClaim", name := "db-clone", ns := "app"
              uid := some "abcd-1234" } } }

/-- The happy-path trace: the claim event, then the backup job reporting
status.succeeded = 1. -/
def tr0 : List Event :=
  [ .claimCreated env0 ev0,
    .jobSucceededSet "app" "pg-reflinker-abcd-1234" (some 1) ]

/-- Fixture source PVC owned by two CNPG clusters (for the ownership
claim). -/
def srcPvc9 : SourcePvcObj :=
  { phase := "Bound"
    ownerReferences :=
      [ { kind := "Cluster", apiVersion := "postgresql.cnpg.io/v1", name := "db-first" },
        { kind := "Cluster", apiVersion := "postgresql.cnpg.io/v1", name := "db-second" } ]
    volumeName := none }

/-- Fixture environment resolving the source PVC to srcPvc9 (two
Cluster owners). -/
def env9 : Env :=
  { env0 with
      readPvc := fun n ns =>
        if n == "db-1-data" && ns == "app" then .ok srcPvc9
        else .error { status := 404, msg := "not found" }
      getCluster := fun _ n =>
        if n == "db-first" then .ok { imageName := some "pg:16" }
        else .error { status := 404, msg := "not found" }
      listPods := fun ns c =>
        if ns == "app" && c == "db-first" then [{ nodeName := "node-a", podIp := "10.0.0.5" }]
        else [] }

/-- A managed PV whose name is the one the conditions failure handler
actually computes for the fixture job (the text after the last hyphen). -/
def pvShort : PVObj :=
  { name := "pvc-1234"
    labels := managedByLabel
    annotations := []
    spec :=
      { capacity := "1Gi", accessModes := [], localPath := ""
        storageClassName := none, persistentVolumeReclaimPolicy := some "Delete"
        nodeAffinity := none, claimRef := none }
    phase := "Bound" }

/-- The fixture backup job with a Failed=True condition already
observed (the old value of status.conditions before a redelivery). -/
def jobFailedAlready : JobObj :=
  { name := "pg-reflinker-abcd-1234"
    ns := "app"
    labels := managedByLabel
    annotations := [("pg-reflinker/pv-guid", "abcd-1234")]
    podSpec := { nodeName := some "node-a", restartPolicy := "Never" }
    status := { conditions := [("Failed", "True")] } }

/-- A state in which the job's conditions already contain Failed=True
and the PV the conditions handler targets exists. -/
def stC4 : Cluster := { pvs := [pvShort], jobs := [jobFailedAlready], pvcs := [] }

/-- The backup Job the happy-path fixture creates (the second component
of `plan defaultHostpath env0 ev0`). -/
def job0 : JobObj :=
  mkBackupJob "pg-reflinker-abcd-1234" "app" "abcd-1234" "node-a" "10.0.0.5" "db-1-data"
    "db-1" "pg:16" "/var/lib/pg-reflinker/abcd-1234"

/-- Whether the validation phase decided to create objects. -/
def planOkSome (r : Except KopfErr (Option (PVObj × JobObj))) : Bool :=
  match r with
  | .ok (some _) => true
  | _ => false

/-- The late-binding invariant over a cluster state: every
PersistentVolume whose storage-class field is set is matched by a job
that has reported success (status.succeeded reached 1) and whose
success-handler guid computation (`name.replace('pg-reflinker-', '')`)
names exactly this volume — for the jobs the controller creates,
pg-reflinker-{guid}, that volume is pvc-{guid}. -/
def LateBindingInv (st : Cluster) : Prop :=
  ∀ pv ∈ st.pvs, (pv.spec.storageClassName).isSome = true →
    ∃ j ∈ st.jobs, j.status.everSucceeded = true ∧
      pv.name = "pvc-" ++ guidFromJobName j.name

/-! Helper lemmas shared by the claim theorems. -/

/-- On every success path of the validation phase, the planned PV has
no storage class and no claim reference, the object names embed the
guid, and the claim coordinates live in the annotations. -/
theorem plan_ok_shape {hostpathRoot : String} {env : Env} {ev : PvcEvent}
    {pv : PVObj} {job : JobObj}
    (hplan : plan hostpathRoot env ev = .ok (some (pv, job))) :
    pv.spec.storageClassName = none ∧ pv.spec.claimRef = none ∧
    pv.name = "pvc-" ++ ev.uid.getD env.randomGuid ∧
    job.name = "pg-reflinker-" ++ ev.uid.getD env.randomGuid ∧
    pv.labels = managedByLabel ∧
    List.lookup "pg-reflinker/claim-namespace" pv.annotations = some ev.ns ∧
    List.lookup "pg-reflinker/claim-name" pv.annotations = some ev.name := by
  unfold plan at hplan
  repeat' split at hplan
  all_goals simp_all
  all_goals (obtain ⟨rfl, rfl⟩ := hplan; exact ⟨rfl, rfl, rfl, rfl, rfl, rfl, rfl⟩)

/-- After deleting a PV by name, that name is gone. -/
theorem findPv_delete_self (st : Cluster) (n : String) :
    findPv (delete_persistent_volume st n).1 n = none := by
  unfold delete_persistent_volume findPv
  split
  case isTrue h =>
    simp only [List.find?_eq_none, List.mem_filter]
    intro p hp
    simp only [Bool.not_eq_true]
    exact (Bool.not_eq_true _).mp (by simpa using hp.2)
  case isFalse h =>
    simp only [List.any_eq_true, beq_iff_eq, not_exists, not_and] at h
    simp only [List.find?_eq_none, beq_iff_eq]
    intro p hp
    exact h p hp

/-- The invariant transports along a state change whose PVs all come
from old PVs with the same name and storage class and whose jobs only
grow (names kept, everSucceeded never unset). -/
theorem lateBindingInv_of_refines {st st2 : Cluster}
    (hpv : ∀ pv ∈ st2.pvs, ∃ q ∈ st.pvs,
      pv.name = q.name ∧ pv.spec.storageClassName = q.spec.storageClassName)
    (hjob : ∀ j ∈ st.jobs, ∃ j2 ∈ st2.jobs, j2.name = j.name ∧
      (j.status.everSucceeded = true → j2.status.everSucceeded = true))
    (h : LateBindingInv st) : LateBindingInv st2 := by
  intro pv hmem hsome
  obtain ⟨q, hq, hname, hsc⟩ := hpv pv hmem
  obtain ⟨j, hj, hjs, hguid⟩ := h q hq (by rw [← hsc]; exact hsome)
  obtain ⟨j2, hj2, hjname, hmono⟩ := hjob j hj
  refine ⟨j2, hj2, hmono hjs, ?_⟩
  rw [hname, hguid, hjname]

/-- A status rewrite that keeps every job's name and never unsets
everSucceeded refines the job list. -/
theorem jobs_refine_updateJob (st : Cluster) (ns n : String) (f : JobObj → JobObj)
    (hf : ∀ j, (f j).name = j.name ∧
      (j.status.everSucceeded = true → (f j).status.everSucceeded = true)) :
    ∀ j ∈ st.jobs, ∃ j2 ∈ (updateJob st ns n f).jobs, j2.name = j.name ∧
      (j.status.everSucceeded = true → j2.status.everSucceeded = true) := by
  intro j hj
  unfold updateJob
  refine ⟨if j.ns == ns && j.name == n then f j else j, List.mem_map_of_mem _ hj, ?_⟩
  split
  · exact hf j
  · exact ⟨rfl, fun h => h⟩

/-- The identity refinement on the PV list. -/
theorem pvs_refine_id (st : Cluster) :
    ∀ pv ∈ st.pvs, ∃ q ∈ st.pvs,
      pv.name = q.name ∧ pv.spec.storageClassName = q.spec.storageClassName :=
  fun pv hmem => ⟨pv, hmem, rfl, rfl⟩

/-- The identity refinement on the job list. -/
theorem jobs_refine_id (st : Cluster) :
    ∀ j ∈ st.jobs, ∃ j2 ∈ st.jobs, j2.name = j.name ∧
      (j.status.everSucceeded = true → j2.status.everSucceeded = true) :=
  fun j hj => ⟨j, hj, rfl, fun h => h⟩

/-- Deleting a PV preserves the invariant. -/
theorem inv_delete (st : Cluster) (n : String) (h : LateBindingInv st) :
    LateBindingInv (delete_persistent_volume st n).1 := by
  unfold delete_persistent_volume
  split
  · refine lateBindingInv_of_refines ?_ (jobs_refine_id st) h
    intro pv hmem
    have hm := (List.mem_filter.mp hmem).1
    exact ⟨pv, hm, rfl, rfl⟩
  · exact h

/-- The status.failed handler preserves the invariant. -/
theorem inv_handle_job_failed (old new : Option Nat) (n : String) (st : Cluster)
    (h : LateBindingInv st) : LateBindingInv (handle_job_failed old new n st) := by
  unfold handle_job_failed
  split
  · exact inv_delete st _ h
  · exact h

/-- The status.conditions failure handler preserves the invariant. -/
theorem inv_handle_job_failed_conditions (conds : List (String × String)) (n : String)
    (st : Cluster) (h : LateBindingInv st) :
    LateBindingInv (handle_job_failed_conditions conds n st) := by
  unfold handle_job_failed_conditions
  split
  · exact inv_delete _ _ (inv_delete st _ h)
  · exact h

/-- Creating a PV whose storage class is unset preserves the invariant. -/
theorem inv_createPv (st : Cluster) (pv : PVObj) (hsc : pv.spec.storageClassName = none)
    (h : LateBindingInv st) : LateBindingInv (create_persistent_volume st pv).1 := by
  unfold create_persistent_volume
  split
  · exact h
  · intro p hp hs
    rcases List.mem_append.mp hp with hl | hr
    · exact h p hl hs
    · simp only [List.mem_singleton] at hr
      subst hr
      rw [hsc] at hs
      simp at hs

/-- Creating a job preserves the invariant. -/
theorem inv_createJob (st : Cluster) (job : JobObj) (h : LateBindingInv st) :
    LateBindingInv (create_namespaced_job st job).1 := by
  unfold create_namespaced_job
  split
  · exact h
  · intro p hp hs
    obtain ⟨j, hj, hje, hjn⟩ := h p hp hs
    exact ⟨j, List.mem_append_left _ hj, hje, hjn⟩

/-- handle_pvc_create preserves the invariant: both objects it may
create are a storage-class-free PV and a job. -/
theorem inv_handle_pvc_create (hostpathRoot : String) (env : Env) (ev : PvcEvent) (st : Cluster)
    (h : LateBindingInv st) : LateBindingInv (handle_pvc_create hostpathRoot env ev st).1 := by
  unfold handle_pvc_create
  split
  · exact h
  · exact h
  case h_3 pv job hplan =>
    have hscnone := (plan_ok_shape hplan).1
    split
    case h_1 stA e heq =>
      have hA : (create_persistent_volume st pv).1 = stA := by rw [heq]
      exact hA ▸ inv_createPv st pv hscnone h
    case h_2 stA u heq =>
      have hA : (create_persistent_volume st pv).1 = stA := by rw [heq]
      exact hA ▸ (inv_createJob _ job (inv_createPv st pv hscnone h))

/-- handle_job_succeeded preserves the invariant, provided that on the
edge the state already holds a succeeded job with the handler's name
(which the step relation guarantees: the handler only fires after the
orchestrator wrote status.succeeded = 1). -/
theorem inv_handle_job_succeeded (old v : Option Nat) (n : String) (st : Cluster)
    (h : LateBindingInv st)
    (hwit : (pyFalsyNat old && v == some 1) = true →
      ∃ j ∈ st.jobs, j.status.everSucceeded = true ∧ j.name = n) :
    LateBindingInv (handle_job_succeeded old v n st).1 := by
  unfold handle_job_succeeded
  split
  case isTrue hedge =>
    simp only []
    split
    · exact h
    case h_2 pv hfind =>
      split
      · exact h
      split
      case h_2 => exact h
      case h_1 sc cn cns hanns =>
        split
        · exact h
        split
        · exact h
        case h_2 pvc hpvc =>
          obtain ⟨j, hj, hjev, hjn⟩ := hwit hedge
          intro p hp hs
          unfold replace_persistent_volume at hp
          simp only [List.mem_map] at hp
          obtain ⟨q, hq, hqe⟩ := hp
          by_cases hqn : (q.name == "pvc-" ++ guidFromJobName n) = true
          · rw [if_pos hqn] at hqe
            subst hqe
            refine ⟨j, hj, hjev, ?_⟩
            unfold findPv at hfind
            have hpvname := List.find?_some hfind
            simp only [] at hpvname
            rw [hjn]
            exact eq_of_beq hpvname
          · rw [if_neg hqn] at hqe
            subst hqe
            exact h q hq hs
  case isFalse => exact h

/-- Every event step preserves the late-binding invariant. -/
theorem inv_step (hostpathRoot : String) (st : Cluster) (e : Event)
    (h : LateBindingInv st) : LateBindingInv (step hostpathRoot st e) := by
  cases e with
  | claimCreated env ev =>
    simp only [step]
    have h0 : LateBindingInv
        (if st.pvcs.any (fun p => p.ns == ev.ns && p.name == ev.name) then st
         else { st with pvcs := st.pvcs ++ [{ ns := ev.ns, name := ev.name, uid := ev.uid }] }) := by
      split
      · exact h
      · exact h
    exact inv_handle_pvc_create hostpathRoot env ev _ h0
  | jobSucceededSet ns n v =>
    simp only [step]
    split
    · exact h
    case h_2 j hfind =>
      have hj : j ∈ st.jobs := List.mem_of_find?_eq_some hfind
      have hpred := List.find?_some hfind
      simp only [Bool.and_eq_true] at hpred
      have h1 : LateBindingInv (updateJob st ns n (fun j0 =>
          { j0 with status := { j0.status with
              succeeded := v
              everSucceeded := j0.status.everSucceeded || succeededReached v } })) := by
        refine lateBindingInv_of_refines (pvs_refine_id st)
          (jobs_refine_updateJob st ns n _ (fun j0 => ⟨rfl, fun hev => by
            simp only [hev, Bool.true_or]⟩)) h
      split
      · refine inv_handle_job_succeeded _ _ _ _ h1 (fun hedge => ?_)
        simp only [Bool.and_eq_true] at hedge
        have hv : v = some 1 := eq_of_beq hedge.2
        refine ⟨if j.ns == ns && j.name == n then
            { j with status := { j.status with
                succeeded := v
                everSucceeded := j.status.everSucceeded || succeededReached v } } else j,
          List.mem_map_of_mem _ hj, ?_, ?_⟩
        · rw [if_pos (by simp [hpred.1, hpred.2])]
          simp [hv, succeededReached]
        · rw [if_pos (by simp [hpred.1, hpred.2])]
          exact eq_of_beq hpred.2
      · exact h1
  | jobFailedSet ns n v =>
    simp only [step]
    split
    · exact h
    case h_2 j hfind =>
      have h1 : LateBindingInv (updateJob st ns n (fun j0 =>
          { j0 with status := { j0.status with failed := v } })) :=
        lateBindingInv_of_refines (pvs_refine_id st)
          (jobs_refine_updateJob st ns n _ (fun j0 => ⟨rfl, fun hev => hev⟩)) h
      split
      · exact inv_handle_job_failed _ _ _ _ h1
      · exact h1
  | jobConditionsSet ns n conds =>
    simp only [step]
    split
    · exact h
    case h_2 j hfind =>
      have h1 : LateBindingInv (updateJob st ns n (fun j0 =>
          { j0 with status := { j0.status with conditions := conds } })) :=
        lateBindingInv_of_refines (pvs_refine_id st)
          (jobs_refine_updateJob st ns n _ (fun j0 => ⟨rfl, fun hev => hev⟩)) h
      split
      · exact inv_handle_job_failed_conditions _ _ _ h1
      · exact h1
  | pvPhaseSet n phase =>
    simp only [step]
    split
    · exact h
    case h_2 pv hfind =>
      have h1 : LateBindingInv { st with pvs := st.pvs.map (fun p => if p.name == n then { p with phase := phase } else p) } := by
        refine lateBindingInv_of_refines ?_ (jobs_refine_id st) h
        intro p hp
        simp only [List.mem_map] at hp
        obtain ⟨q, hq, hqe⟩ := hp
        subst hqe
        split
        · exact ⟨q, hq, rfl, rfl⟩
        · exact ⟨q, hq, rfl, rfl⟩
      split
      · unfold handle_pv_failed
        split
        · exact inv_delete _ _ h1
        · exact h1
      · exact h1
  | pvDeleted n =>
    simp only [step]
    split
    · exact h
    case h_2 pv hfind =>
      have h1 : LateBindingInv { st with pvs := st.pvs.filter (fun p => !(p.name == n)) } := by
        refine lateBindingInv_of_refines ?_ (jobs_refine_id st) h
        intro p hp
        exact ⟨p, (List.mem_filter.mp hp).1, rfl, rfl⟩
      split
      · split
        · exact inv_createJob _ _ h1
        · exact h1
      · exact h1
  | claimDeleted ns n => exact h

/-- The invariant holds in every reachable state. -/
theorem inv_runEvents (hostpathRoot : String) (evs : List Event) :
    LateBindingInv (runEvents hostpathRoot evs) := by
  unfold runEvents
  have H : ∀ st : Cluster, LateBindingInv st →
      LateBindingInv (evs.foldl (step hostpathRoot) st) := by
    induction evs with
    | nil => exact fun st hst => hst
    | cons e tl ih => exact fun st hst => ih _ (inv_step hostpathRoot st e hst)
  exact H {} (fun pv hmem => absurd hmem (List.not_mem_nil pv))

/-! The claim theorems. -/

/-- C1: late-binding invariant.  In every state reachable by replaying
watch events from the empty cluster, a PersistentVolume whose
storage-class field is set is matched by a job that has reported
success (its status.succeeded reached 1) and whose success-handler guid
computation names exactly this volume; since handle_pvc_create creates
pv (storage class unset) and job as pvc-{guid} / pg-reflinker-{guid}
and only handle_job_succeeded (firing on the edge to
status.succeeded = 1) ever sets the storage class, no SnapshotVolume
ever exists with its storage-class field set while its BackupJob has
not reported success. -/
theorem storage_class_only_after_job_success (hostpathRoot : String) (evs : List Event)
    (pv : PVObj) (hpv : pv ∈ (runEvents hostpathRoot evs).pvs)
    (hsc : (pv.spec.storageClassName).isSome = true) :
    ∃ j ∈ (runEvents hostpathRoot evs).jobs, j.status.everSucceeded = true ∧
      pv.name = "pvc-" ++ guidFromJobName j.name :=
  inv_runEvents hostpathRoot evs pv hpv hsc

/-- Witness for C1: after the happy-path trace (claim created, then the
backup job succeeds) the bound volume pvc-abcd-1234 is matched by the
succeeded job pg-reflinker-abcd-1234. -/
theorem storage_class_only_after_job_success_witness :
    ∃ j ∈ (runEvents defaultHostpath tr0).jobs, j.status.everSucceeded = true ∧
      boundPv0.name = "pvc-" ++ guidFromJobName j.name :=
  storage_class_only_after_job_success defaultHostpath tr0 boundPv0 (by decide) (by decide)

/-- C2 counterexample: on the happy-path fixture the PV that
handle_pvc_create creates carries no claim reference at all
(spec.claim_ref is unset), not a {namespace, name} reference with the
UID omitted as the claim states. -/
theorem prebound_claim_ref_cex :
    (planned defaultHostpath env0 ev0).map (fun pj => pj.1.spec.claimRef) = some none ∧
    some (none : Option ClaimRef) ≠
      some (some { kind := "PersistentVolumeClaim", name := "db-clone", ns := "app", uid := none }) := by
  exact ⟨by decide, by decide⟩

/-- C2 as amended: for every claim processed to the publishing step,
the PersistentVolume created before the BackupJob succeeds has no claim
reference; the requesting claim's coordinates are recorded only in the
pg-reflinker/claim-namespace and pg-reflinker/claim-name annotations. -/
theorem prebound_pv_has_no_claim_ref (hostpathRoot : String) (env : Env) (ev : PvcEvent)
    (pv : PVObj) (job : JobObj)
    (hplan : plan hostpathRoot env ev = .ok (some (pv, job))) :
    pv.spec.claimRef = none ∧
    List.lookup "pg-reflinker/claim-namespace" pv.annotations = some ev.ns ∧
    List.lookup "pg-reflinker/claim-name" pv.annotations = some ev.name := by
  obtain ⟨-, h1, -, -, -, h2, h3⟩ := plan_ok_shape hplan
  exact ⟨h1, h2, h3⟩

/-- Witness for the amended C2 at the happy-path fixture. -/
theorem prebound_pv_has_no_claim_ref_witness :
    pv0.spec.claimRef = none ∧
    List.lookup "pg-reflinker/claim-namespace" pv0.annotations = some ev0.ns ∧
    List.lookup "pg-reflinker/claim-name" pv0.annotations = some ev0.name :=
  prebound_pv_has_no_claim_ref defaultHostpath env0 ev0 pv0 job0 (by rfl)

/-- C3 counterexample: with the pre-bound PV present but the claim
gone, handle_job_succeeded aborts with a PermanentError and the
PersistentVolume is still there — no delete is issued, contrary to the
claim. -/
theorem bind_abort_no_delete_cex :
    handle_job_succeeded none (some 1) "pg-reflinker-abcd-1234" stOne =
      (stOne, .error (.permanentError "Failed to retrieve PVC app/db-clone")) ∧
    findPv (handle_job_succeeded none (some 1) "pg-reflinker-abcd-1234" stOne).1
      "pvc-abcd-1234" = some pv0 := by
  exact ⟨by decide, by decide⟩

/-- C3 as amended: in the bound transition the controller reads the
current claim to obtain its UID; when that read fails, the transition
aborts with a PermanentError but the cluster state is unchanged — in
particular the SnapshotVolume is not deleted. -/
theorem bind_abort_keeps_volume (old new : Option Nat) (n : String) (st : Cluster)
    (pv : PVObj) (storageClass claimName claimNamespace : String)
    (hedge : (pyFalsyNat old && new == some 1) = true)
    (hpv : findPv st ("pvc-" ++ guidFromJobName n) = some pv)
    (hsc : List.lookup "pg-reflinker/storage-class" pv.annotations = some storageClass)
    (hcn : List.lookup "pg-reflinker/claim-name" pv.annotations = some claimName)
    (hcns : List.lookup "pg-reflinker/claim-namespace" pv.annotations = some claimNamespace)
    (hne : (storageClass == "") = false ∧ (claimName == "") = false ∧ (claimNamespace == "") = false)
    (hmiss : findPvc st claimNamespace claimName = none) :
    handle_job_succeeded old new n st =
      (st, .error (.permanentError ("Failed to retrieve PVC " ++ claimNamespace ++ "/" ++ claimName))) := by
  have hanns : pv.annotations.isEmpty = false := by
    cases h : pv.annotations with
    | nil => rw [h] at hsc; simp [List.lookup] at hsc
    | cons a l => simp [List.isEmpty]
  unfold handle_job_succeeded
  rw [hedge]
  simp only [if_true]
  rw [hpv]
  simp only [hanns, Bool.false_eq_true, if_false]
  rw [hsc, hcn, hcns]
  simp only [hne.1, hne.2.1, hne.2.2, Bool.or_self, Bool.false_or, Bool.or_false,
    Bool.false_eq_true, if_false]
  rw [hmiss]

/-- Witness for the amended C3 at the fixture state without the claim. -/
theorem bind_abort_keeps_volume_witness :
    handle_job_succeeded none (some 1) "pg-reflinker-abcd-1234" stOne =
      (stOne, .error (.permanentError ("Failed to retrieve PVC " ++ "app" ++ "/" ++ "db-clone"))) :=
  bind_abort_keeps_volume none (some 1) "pg-reflinker-abcd-1234" stOne pv0 "pgrl" "db-clone" "app"
    (by decide) (by decide) (by decide) (by decide) (by decide)
    ⟨by decide, by decide, by decide⟩ (by decide)

/-- C4 counterexample: a redelivered status.conditions event whose old
value already contained Failed=True (stC4 records it in the job's
status) still fires the delete — the PV list is emptied — so the
conditions handler does not de-duplicate on the edge. -/
theorem conditions_handler_redelivery_cex :
    stC4.jobs.map (fun j => j.status.conditions) = [[("Failed", "True")]] ∧
    (step defaultHostpath stC4 (.jobConditionsSet "app" "pg-reflinker-abcd-1234" [("Failed", "True")])).pvs = [] ∧
    stC4.pvs = [pvShort] := by
  exact ⟨by decide, by decide, by decide⟩

/-- C4 as amended: the success handler and the status.failed handler
fire only on the edge (old absent or zero and new equal to 1) — away
from the edge they change nothing and report no error — while the
status.conditions failure handler performs no old/new comparison: its
delete takes effect whenever the current conditions contain a
Failed=True entry, regardless of any previously delivered value. -/
theorem edge_triggering_status_fields (old new : Option Nat) (n : String) (st : Cluster)
    (hnoedge : (pyFalsyNat old && new == some 1) = false) :
    handle_job_succeeded old new n st = (st, .ok ()) ∧
    handle_job_failed old new n st = st ∧
    (∀ conds : List (String × String),
      (conds.find? (fun c => c.1 == "Failed" && c.2 == "True")).isSome = true →
      findPv (handle_job_failed_conditions conds n st) ("pvc-" ++ (pySplit n '-').getLastD "") = none) := by
  refine ⟨?_, ?_, ?_⟩
  · unfold handle_job_succeeded
    rw [hnoedge]
    simp
  · unfold handle_job_failed
    rw [hnoedge]
    simp
  · intro conds hsome
    unfold handle_job_failed_conditions
    cases h : conds.find? (fun c => c.1 == "Failed" && c.2 == "True") with
    | none => rw [h] at hsome; simp at hsome
    | some c => exact findPv_delete_self _ _

/-- Witness for the amended C4: a redelivered success event (old
already 1) is a no-op, and the conditions handler acts on Failed=True. -/
theorem edge_triggering_status_fields_witness :
    handle_job_succeeded (some 1) (some 1) "pg-reflinker-abcd-1234" stOne = (stOne, .ok ()) ∧
    handle_job_failed (some 1) (some 1) "pg-reflinker-abcd-1234" stOne = stOne ∧
    (∀ conds : List (String × String),
      (conds.find? (fun c => c.1 == "Failed" && c.2 == "True")).isSome = true →
      findPv (handle_job_failed_conditions conds "pg-reflinker-abcd-1234" stOne)
        ("pvc-" ++ (pySplit "pg-reflinker-abcd-1234" '-').getLastD "") = none) :=
  edge_triggering_status_fields (some 1) (some 1) "pg-reflinker-abcd-1234" stOne (by decide)

/-- C5: on a Failed=True condition for the managed job
pg-reflinker-abcd-1234 (guid abcd-1234, a hyphenated claim UID), the
conditions handler computes the guid as the text after the last hyphen
(1234) and deletes pvc-1234, leaving the real SnapshotVolume
pvc-abcd-1234 untouched; the status.failed path of the same claim,
which uses name.replace('pg-reflinker-', ''), does delete it.  This
evaluates the code at the failing input of the code_bug record. -/
theorem conditions_handler_wrong_guid :
    ((pySplit "pg-reflinker-abcd-1234" '-').getLastD "") = "1234" ∧
    handle_job_failed_conditions [("Failed", "True")] "pg-reflinker-abcd-1234" stOne = stOne ∧
    findPv stOne "pvc-abcd-1234" = some pv0 ∧
    handle_job_failed none (some 1) "pg-reflinker-abcd-1234" stOne = { stOne with pvs := [] } := by
  exact ⟨by decide, by decide, by decide, by decide⟩

/-- C6: on deletion of a managed SnapshotVolume carrying the
source-backup-label annotation, reclaim policy Delete dispatches
exactly one cleanup job — named pg-reflinker-cleanup-{guid}, in the
namespace of the source-namespace annotation (default when absent),
pinned via node_name to the node annotation, mounting HOSTPATH_PREFIX
at /cleanup and running rm -rf /cleanup/{guid} — while reclaim policy
Retain schedules nothing. -/
theorem cleanup_dispatch_by_reclaim_policy (hostpathRoot : String) (pv : PVObj) (guid : String)
    (hguid : List.lookup "pg-reflinker/source-backup-label" pv.annotations = some guid) :
    (pv.spec.persistentVolumeReclaimPolicy.getD "Retain" = "Delete" →
      ∃ j, handle_pv_delete hostpathRoot pv = some j ∧
        j.name = "pg-reflinker-cleanup-" ++ guid ∧
        j.ns = (List.lookup "pg-reflinker/source-namespace" pv.annotations).getD "default" ∧
        j.podSpec.nodeName = List.lookup "pg-reflinker/node" pv.annotations ∧
        j.podSpec.volumes = [("cleanup-data", .hostPath hostpathRoot)] ∧
        j.podSpec.containers.map (fun c => c.command) = [["sh", "-c", "rm -rf /cleanup/" ++ guid]] ∧
        j.podSpec.containers.map (fun c => c.volumeMounts) = [[("cleanup-data", "/cleanup")]]) ∧
    (pv.spec.persistentVolumeReclaimPolicy.getD "Retain" = "Retain" →
      handle_pv_delete hostpathRoot pv = none) := by
  unfold handle_pv_delete
  rw [hguid]
  constructor
  · intro hdel
    rw [hdel]
    exact ⟨_, rfl, rfl, rfl, rfl, rfl, rfl, rfl⟩
  · intro hret
    rw [hret]
    simp

/-- Witness for C6 at the fixture PV (reclaim policy Delete). -/
theorem cleanup_dispatch_by_reclaim_policy_witness :
    (pv0.spec.persistentVolumeReclaimPolicy.getD "Retain" = "Delete" →
      ∃ j, handle_pv_delete defaultHostpath pv0 = some j ∧
        j.name = "pg-reflinker-cleanup-" ++ "abcd-1234" ∧
        j.ns = (List.lookup "pg-reflinker/source-namespace" pv0.annotations).getD "default" ∧
        j.podSpec.nodeName = List.lookup "pg-reflinker/node" pv0.annotations ∧
        j.podSpec.volumes = [("cleanup-data", .hostPath defaultHostpath)] ∧
        j.podSpec.containers.map (fun c => c.command) = [["sh", "-c", "rm -rf /cleanup/" ++ "abcd-1234"]] ∧
        j.podSpec.containers.map (fun c => c.volumeMounts) = [[("cleanup-data", "/cleanup")]]) ∧
    (pv0.spec.persistentVolumeReclaimPolicy.getD "Retain" = "Retain" →
      handle_pv_delete defaultHostpath pv0 = none) :=
  cleanup_dispatch_by_reclaim_policy defaultHostpath pv0 "abcd-1234" (by decide)

/-- C7: the psql session of the script every BackupJob embeds performs,
in order, pg_backup_start with label 'reflinker-' || TAG and fast
checkpointing (second argument true), then the reflink copy of /source
to /dest/pgdata as a shell escape, then pg_backup_stop whose labelfile
result is redirected to /dest/pgdata/backup_label (overwriting it after
the copy); the job's main container runs exactly this script with
BACKUP_LABEL set to the guid. -/
theorem backup_protocol_order (jobName sourceNamespace guid sourceNode podIp sourcePvcName
    clusterName postgresImage pvPath : String) :
    backupProtocol =
      [ .query "SELECT pg_backup_start('reflinker-' || :'TAG', true);" none,
        .shell "cp -a --reflink=always /source /dest/pgdata",
        .query "SELECT labelfile from pg_backup_stop(false);" (some "/dest/pgdata/backup_label") ] ∧
    (mkBackupJob jobName sourceNamespace guid sourceNode podIp sourcePvcName clusterName
        postgresImage pvPath).podSpec.containers.map (fun c => c.command)
      = [["/bin/bash", "-c", backupScript]] ∧
    (mkBackupJob jobName sourceNamespace guid sourceNode podIp sourcePvcName clusterName
        postgresImage pvPath).podSpec.containers.map (fun c => c.env)
      = [[ ("PGHOST", podIp), ("BACKUP_LABEL", guid), ("PGSSLMODE", "verify-ca"),
           ("PGSSLCERT", "/secrets/replication/tls.crt"),
           ("PGSSLKEY", "/secrets/replication/tls.key"),
           ("PGSSLROOTCERT", "/secrets/ca/ca.crt") ]] := by
  exact ⟨by decide, rfl, rfl⟩

/-- C8 counterexample: replaying the same claim-created event against
the state its first run produced leaves that state unchanged but raises
the 409 AlreadyExists conflict instead of finishing without error. -/
theorem redelivered_create_cex :
    handle_pvc_create defaultHostpath env0 ev0 {} =
      ({ pvs := [pv0], jobs := [job0], pvcs := [] }, .ok ()) ∧
    handle_pvc_create defaultHostpath env0 ev0 { pvs := [pv0], jobs := [job0], pvcs := [] } =
      ({ pvs := [pv0], jobs := [job0], pvcs := [] },
        .error (.apiError 409 "persistentvolumes already exists")) := by
  exact ⟨by rfl, by rfl⟩

/-- C8 as amended: whenever a run of handle_pvc_create created its
objects and succeeded, running it again with the same claim leaves the
object set unchanged — still the single PV pvc-{guid} and single Job
pg-reflinker-{guid} — but the duplicate PV create fails with 409
AlreadyExists and that ApiException propagates out of the handler
uncaught, so the rerun is not error-free. -/
theorem redelivered_create_conflict (hostpathRoot : String) (env : Env) (ev : PvcEvent)
    (st st1 : Cluster) (pv : PVObj) (job : JobObj)
    (hplan : plan hostpathRoot env ev = .ok (some (pv, job)))
    (hrun : handle_pvc_create hostpathRoot env ev st = (st1, .ok ())) :
    handle_pvc_create hostpathRoot env ev st1 =
      (st1, .error (.apiError 409 "persistentvolumes already exists")) ∧
    pv.name = "pvc-" ++ ev.uid.getD env.randomGuid ∧
    job.name = "pg-reflinker-" ++ ev.uid.getD env.randomGuid := by
  have hshape := plan_ok_shape hplan
  refine ⟨?_, hshape.2.2.1, hshape.2.2.2.1⟩
  unfold handle_pvc_create at hrun ⊢
  rw [hplan] at hrun ⊢
  simp only [] at hrun ⊢
  rcases hcp : create_persistent_volume st pv with ⟨stA, rA⟩
  rw [hcp] at hrun
  cases rA with
  | error e => simp at hrun
  | ok u =>
    simp only [] at hrun
    unfold create_persistent_volume at hcp
    split at hcp
    · exact absurd (congrArg Prod.snd hcp) (by simp)
    case isFalse hdup =>
      injection hcp with h1 h2
      subst h1
      unfold create_namespaced_job at hrun
      split at hrun
      · simp at hrun
      case isFalse hdup2 =>
        injection hrun with h3 h4
        subst h3
        unfold create_persistent_volume
        rw [if_pos (by simp only [List.any_eq_true]; exact ⟨pv, by simp, by simp⟩)]

/-- Witness for the amended C8: the happy-path fixture run twice. -/
theorem redelivered_create_conflict_witness :
    handle_pvc_create defaultHostpath env0 ev0 { pvs := [pv0], jobs := [job0], pvcs := [] } =
      ({ pvs := [pv0], jobs := [job0], pvcs := [] },
        .error (.apiError 409 "persistentvolumes already exists")) ∧
    pv0.name = "pvc-" ++ ev0.uid.getD env0.randomGuid ∧
    job0.name = "pg-reflinker-" ++ ev0.uid.getD env0.randomGuid :=
  redelivered_create_conflict defaultHostpath env0 ev0 {}
    { pvs := [pv0], jobs := [job0], pvcs := [] } pv0 job0 (by rfl) (by rfl)

/-- C9 counterexample: a source claim owned by two CNPG Clusters is not
rejected — the validation phase succeeds and records the first owner,
db-first, as the source cluster — contrary to the claim that any shape
other than exactly one owner is a permanent BadRequest failure with no
objects created. -/
theorem multiple_cluster_owners_cex :
    (srcPvc9.ownerReferences.countP (fun r => isCnpgClusterOwner r)) = 2 ∧
    planOkSome (plan defaultHostpath env9 ev0) = true ∧
    (planned defaultHostpath env9 ev0).map
        (fun pj => List.lookup "pg-reflinker/source-cluster" pj.1.annotations) =
      some (some "db-first") := by
  exact ⟨by decide, by decide, by decide⟩

/-- C9 as amended: the controller requires at least one owner of kind
Cluster with api group postgresql.cnpg.io/v1 on the resolved source
claim: with zero matching owners the handler is a permanent failure
creating nothing, and otherwise the first matching owner reference is
the cluster used — more than one matching owner is not rejected. -/
theorem owner_resolution_first_match (hostpathRoot : String) (env : Env) (ev : PvcEvent)
    (scn : String) (sc : StorageClassObj) (dsr : DataSourceRef)
    (sns : String) (spvc : SourcePvcObj)
    (h1 : ev.storageClassName = some scn)
    (h2 : env.readStorageClass scn = .ok sc)
    (h3 : sc.provisioner = provisionerName)
    (h4 : ev.dataSourceRef = some dsr)
    (h5 : dsr.kind = "PersistentVolumeClaim")
    (h6 : findSourcePvc env ev dsr = .ok (sns, spvc))
    (h7 : spvc.phase = "Bound") :
    ((∀ r ∈ spvc.ownerReferences, isCnpgClusterOwner r = false) →
      plan hostpathRoot env ev =
        .error (.permanentError "Source PVC must be owned by a CNPG Cluster") ∧
      ∀ st, handle_pvc_create hostpathRoot env ev st =
        (st, .error (.permanentError "Source PVC must be owned by a CNPG Cluster"))) ∧
    (∀ r, spvc.ownerReferences.find? isCnpgClusterOwner = some r →
      ∀ cl pod pods, env.getCluster sns r.name = .ok cl →
        env.listPods sns r.name = pod :: pods →
        env.secretsOk r.name sns = true →
        ∃ pv job, plan hostpathRoot env ev = .ok (some (pv, job)) ∧
          List.lookup "pg-reflinker/source-cluster" pv.annotations = some r.name) := by
  constructor
  · intro hnone
    have hres : resolveClusterName spvc.ownerReferences = none := by
      unfold resolveClusterName
      rw [List.find?_eq_none.mpr (fun x hx => by simp [hnone x hx])]
      rfl
    have hp : plan hostpathRoot env ev =
        .error (.permanentError "Source PVC must be owned by a CNPG Cluster") := by
      unfold plan
      rw [h1]
      simp only []
      rw [h2]
      simp only []
      rw [if_neg (by simp [h3])]
      rw [h4]
      simp only []
      rw [if_neg (by simp [h5])]
      rw [h6]
      simp only []
      rw [if_neg (by simp [h7])]
      rw [hres]
    refine ⟨hp, fun st => ?_⟩
    unfold handle_pvc_create
    rw [hp]
  · intro r hr cl pod pods hcl hpods hsec
    have hres : resolveClusterName spvc.ownerReferences = some r.name := by
      unfold resolveClusterName
      rw [hr]
      rfl
    unfold plan
    rw [h1]
    simp only []
    rw [h2]
    simp only []
    rw [if_neg (by simp [h3])]
    rw [h4]
    simp only []
    rw [if_neg (by simp [h5])]
    rw [h6]
    simp only []
    rw [if_neg (by simp [h7])]
    rw [hres]
    simp only []
    rw [hcl]
    simp only []
    rw [hpods]
    simp only []
    rw [if_neg (by simp [hsec])]
    exact ⟨_, _, rfl, rfl⟩

/-- Witness for the amended C9 at the happy-path fixture (one Cluster
owner, db-1). -/
theorem owner_resolution_first_match_witness :
    ((∀ r ∈ srcPvc0.ownerReferences, isCnpgClusterOwner r = false) →
      plan defaultHostpath env0 ev0 =
        .error (.permanentError "Source PVC must be owned by a CNPG Cluster") ∧
      ∀ st, handle_pvc_create defaultHostpath env0 ev0 st =
        (st, .error (.permanentError "Source PVC must be owned by a CNPG Cluster"))) ∧
    (∀ r, srcPvc0.ownerReferences.find? isCnpgClusterOwner = some r →
      ∀ cl pod pods, env0.getCluster "app" r.name = .ok cl →
        env0.listPods "app" r.name = pod :: pods →
        env0.secretsOk r.name "app" = true →
        ∃ pv job, plan defaultHostpath env0 ev0 = .ok (some (pv, job)) ∧
          List.lookup "pg-reflinker/source-cluster" pv.annotations = some r.name) :=
  owner_resolution_first_match defaultHostpath env0 ev0 "pgrl" sc0
    { kind := "PersistentVolumeClaim", name := "db-1-data", ns := none } "app" srcPvc0
    rfl rfl rfl rfl rfl (by rfl) rfl

/-- C10: the replace issued by handle_job_succeeded writes back the PV
it read with only spec.storage_class_name and spec.claim_ref changed;
name, labels, annotations, phase, capacity, access modes, local path,
reclaim policy and node affinity are all written back unchanged. -/
theorem bound_form_frame (old new : Option Nat) (n : String) (st : Cluster)
    (pv : PVObj) (pvc : PvcObj) (storageClass claimName claimNamespace : String)
    (hedge : (pyFalsyNat old && new == some 1) = true)
    (hpv : findPv st ("pvc-" ++ guidFromJobName n) = some pv)
    (hsc : List.lookup "pg-reflinker/storage-class" pv.annotations = some storageClass)
    (hcn : List.lookup "pg-reflinker/claim-name" pv.annotations = some claimName)
    (hcns : List.lookup "pg-reflinker/claim-namespace" pv.annotations = some claimNamespace)
    (hne : (storageClass == "") = false ∧ (claimName == "") = false ∧ (claimNamespace == "") = false)
    (hpvc : findPvc st claimNamespace claimName = some pvc) :
    ∃ pv2,
      handle_job_succeeded old new n st =
        (replace_persistent_volume st ("pvc-" ++ guidFromJobName n) pv2, .ok ()) ∧
      pv2.spec.storageClassName = some storageClass ∧
      pv2.spec.claimRef = some
        { kind := "PersistentVolumeClaim", name := claimName, ns := claimNamespace, uid := pvc.uid } ∧
      pv2.name = pv.name ∧ pv2.labels = pv.labels ∧ pv2.annotations = pv.annotations ∧
      pv2.phase = pv.phase ∧
      pv2.spec.capacity = pv.spec.capacity ∧
      pv2.spec.accessModes = pv.spec.accessModes ∧
      pv2.spec.localPath = pv.spec.localPath ∧
      pv2.spec.persistentVolumeReclaimPolicy = pv.spec.persistentVolumeReclaimPolicy ∧
      pv2.spec.nodeAffinity = pv.spec.nodeAffinity := by
  have hanns : pv.annotations.isEmpty = false := by
    cases h : pv.annotations with
    | nil => rw [h] at hsc; simp [List.lookup] at hsc
    | cons a l => simp [List.isEmpty]
  refine ⟨{ pv with spec :=
      { pv.spec with
          storageClassName := some storageClass
          claimRef := some
            { kind := "PersistentVolumeClaim", name := claimName, ns := claimNamespace, uid := pvc.uid } } },
    ?_, rfl, rfl, rfl, rfl, rfl, rfl, rfl, rfl, rfl, rfl, rfl⟩
  unfold handle_job_succeeded
  rw [hedge]
  simp only [if_true]
  rw [hpv]
  simp only [hanns, Bool.false_eq_true, if_false]
  rw [hsc, hcn, hcns]
  simp only [hne.1, hne.2.1, hne.2.2, Bool.or_self, Bool.false_or, Bool.or_false,
    Bool.false_eq_true, if_false]
  rw [hpvc]

/-- Witness for C10 at the fixture bind state. -/
theorem bound_form_frame_witness :
    ∃ pv2,
      handle_job_succeeded none (some 1) "pg-reflinker-abcd-1234" stBind =
        (replace_persistent_volume stBind ("pvc-" ++ guidFromJobName "pg-reflinker-abcd-1234") pv2, .ok ()) ∧
      pv2.spec.storageClassName = some "pgrl" ∧
      pv2.spec.claimRef = some
        { kind := "PersistentVolumeClaim", name := "db-clone", ns := "app"
          uid := (⟨"app", "db-clone", some "abcd-1234"⟩ : PvcObj).uid } ∧
      pv2.name = pv0.name ∧ pv2.labels = pv0.labels ∧ pv2.annotations = pv0.annotations ∧
      pv2.phase = pv0.phase ∧
      pv2.spec.capacity = pv0.spec.capacity ∧
      pv2.spec.accessModes = pv0.spec.accessModes ∧
      pv2.spec.localPath = pv0.spec.localPath ∧
      pv2.spec.persistentVolumeReclaimPolicy = pv0.spec.persistentVolumeReclaimPolicy ∧
      pv2.spec.nodeAffinity = pv0.spec.nodeAffinity :=
  bound_form_frame none (some 1) "pg-reflinker-abcd-1234" stBind pv0
    ⟨"app", "db-clone", some "abcd-1234"⟩ "pgrl" "db-clone" "app"
    (by decide) (by decide) (by decide) (by decide) (by decide)
    ⟨by decide, by decide, by decide⟩ (by decide)

end PgReflinker
